import Mathlib

/-!
# Verification of the Cyberlaw-Enforcement client core

Shallow embedding of the case/session state-reconciliation core of
`frontend/public/script.js` and of the `CyberLawLedger` Solidity contract
(`blockchain/contracts/CyberLawLedger.sol`), with theorems settling the
spec's claims about them.

Conventions of the embedding:
* JavaScript `null`/`undefined` string fields become `Option String`;
  JS truthiness of a string (`s &&`, `if (!s)`) is `jsTruthyStr`/`jsTruthyOpt`;
  `a || b` on possibly-absent strings is `jsOrStr`.
* The single global mutable state (`appState`, the `userId` global, the
  `courtroomPollingInterval` handle, and the form `<input>` element values)
  is one structure `AppState`; `pollingActive` models
  `courtroomPollingInterval !== null`.
* DOM writes are not state; the few render functions that also mutate state
  (`renderCourtroomSessionState` clears/starts the polling interval,
  `startCourtroomPolling` logs) are modelled for exactly those effects.
  Pure DOM outcomes needed by claims (the verdict panel's visibility) are
  modelled as projections of the state.
* `addLog` prefixes each entry with the wall-clock time in the source; the
  clock is not modelled, so log entries carry the message text only.
* Network calls are modelled by passing the response (or failure) as an
  explicit argument; each operation returns the new state together with a
  `Bool` saying whether a network request was issued.
-/

/-- JS truthiness of a string: non-empty strings are truthy. -/
def jsTruthyStr (s : String) : Bool := s ≠ ""

/-- JS truthiness of a possibly-null string variable. -/
def jsTruthyOpt : Option String → Bool
  | none => false
  | some s => jsTruthyStr s

/-- JS `a || dflt` where `a` is a possibly-absent string field. -/
def jsOrStr : Option String → String → String
  | none, dflt => dflt
  | some s, dflt => if s = "" then dflt else s

/-- A whitespace character as stripped by JS `String.prototype.trim`
(restricted to the ASCII whitespace actually relevant to form input). -/
def isWhitespaceChar (c : Char) : Bool :=
  c = ' ' || c = '\t' || c = '\n' || c = '\r'

/-- JS `s.trim()`: strip leading and trailing whitespace. -/
def jsTrim (s : String) : String :=
  ⟨((s.data.dropWhile isWhitespaceChar).reverse.dropWhile
      isWhitespaceChar).reverse⟩

/-- One transcript entry of a courtroom session (`script.js`, transcript
rendering around lines 236-251). -/
structure TranscriptLine where
  agent_name : String
  message : String
  type : String
  timestamp : Nat
deriving Repr, DecidableEq

/-- The `final_verdict` record rendered at `script.js` lines 256-264.
ETH amounts are JS numbers used only for display; modelled as `Option Nat`
(absent/0 render as the zero amount). -/
structure Verdict where
  verdict_type : String
  final_fine_eth : Option Nat
  final_ban_status : String
  explanation : String
  final_compensation_eth : Option Nat
  social_score : Nat
  social_score_explanation : String
deriving Repr, DecidableEq

/-- The courtroom session snapshot, `appState.courtroomSessionState`
(`script.js` lines 41-50); also the shape of a poll response body. -/
structure SessionState where
  court_status : String
  current_turn_agent : Option String
  transcript : List TranscriptLine
  jury_deliberation_history : List String
  jury_votes : List (String × String)
  final_verdict : Option Verdict
  error_message : Option String
  agents_status : List (String × String)
deriving Repr, DecidableEq

/-- The initial courtroom session snapshot (`script.js` lines 41-50, and
the reset literal at lines 539-548). -/
def initialSessionState : SessionState :=
  { court_status := "IDLE"
    current_turn_agent := none
    transcript := []
    jury_deliberation_history := []
    jury_votes := []
    final_verdict := none
    error_message := none
    agents_status := [] }

/-- One record of the local ledger-mirror cache, `{ id: doc.id, ...doc.data() }`
(`script.js` lines 357-360). The document payload is kept as a field map. -/
structure CaseDoc where
  id : String
  fields : List (String × String)
deriving Repr, DecidableEq

/-- One document of a Firestore snapshot delivered to the mirror's
`onSnapshot` callback. -/
structure FirestoreDoc where
  id : String
  data : List (String × String)
deriving Repr, DecidableEq

/-- The global mutable client state: `appState` (`script.js` lines 29-51)
together with the `userId` global (line 26), the polling handle
`courtroomPollingInterval` (line 64, as `pollingActive`), and the four form
`<input>` values read and written by `handleFlagPost`. -/
structure AppState where
  userId : Option String
  postContent : String
  postLink : String
  victimInfo : String
  victimEthAddress : String
  status : String
  log : List String
  isProcessing : Bool
  cases : List CaseDoc
  error : Option String
  showCourtroom : Bool
  currentCaseIdForCourtroom : Option String
  courtroomSessionState : SessionState
  pollingActive : Bool
deriving Repr, DecidableEq

/-- The initial client state (`script.js` lines 26-64: `userId = null`,
the `appState` literal, `courtroomPollingInterval = null`, empty form). -/
def initialAppState : AppState :=
  { userId := none
    postContent := ""
    postLink := ""
    victimInfo := ""
    victimEthAddress := ""
    status := "Idle"
    log := []
    isProcessing := false
    cases := []
    error := some ""
    showCourtroom := false
    currentCaseIdForCourtroom := none
    courtroomSessionState := initialSessionState
    pollingActive := false }

/-- `startCourtroomPolling` (`script.js` lines 526-532): (re)installs the
polling interval and logs. -/
def startCourtroomPolling (s : AppState) : AppState :=
  { s with pollingActive := true
           log := s.log ++ ["Started polling for courtroom updates."] }

/-- The state-mutating part of `renderCourtroomSessionState`
(`script.js` lines 208-296): on a terminal status it clears the polling
interval (lines 279-283); otherwise, if the courtroom view is shown and no
interval is installed, it starts polling (lines 293-295). All other work of
the function writes the DOM only. -/
def renderCourtroomSessionState (s : AppState) : AppState :=
  if s.courtroomSessionState.court_status = "COMPLETED"
      ∨ s.courtroomSessionState.court_status = "ERROR" then
    { s with pollingActive := false }
  else if s.showCourtroom ∧ s.pollingActive = false then
    startCourtroomPolling s
  else
    s

/-- The state-mutating part of `renderAppUI` (`script.js` lines 196-206):
in courtroom mode it re-renders the session state (whose modelled effects
are the polling-interval ones above); in flagging mode it only toggles DOM
visibility. -/
def renderAppUI (s : AppState) : AppState :=
  if s.showCourtroom then renderCourtroomSessionState s else s

/-- Whether the final-verdict panel is visible after
`renderCourtroomSessionState` ran on `s`: shown iff `final_verdict` is
truthy (`script.js` lines 256-270). -/
def verdictPanelVisible (s : AppState) : Bool :=
  s.courtroomSessionState.final_verdict.isSome

/-- Outcome of one `GET /get_courtroom_updates` call as observed by
`fetchCourtroomUpdates`: a parsed 2xx body, a non-2xx body (whose optional
`detail` field is kept), or a thrown network error. -/
inductive PollResult where
  | ok (data : SessionState)
  | httpError (detail : Option String)
  | networkError (msg : String)
deriving Repr, DecidableEq

/-- `fetchCourtroomUpdates` (`script.js` lines 487-524). Returns the new
state and whether a network request was issued. With no bound case id the
function returns before fetching (line 489). On a 2xx response the whole
local snapshot is replaced and re-rendered; a terminal status additionally
clears the interval and logs (lines 495-505). On a non-2xx response or a
network error the error is surfaced and logged, the interval is cleared,
and the local status is forced to ERROR with the message attached
(lines 506-523). -/
def fetchCourtroomUpdates (res : PollResult) (s : AppState) : AppState × Bool :=
  match s.currentCaseIdForCourtroom with
  | none => (s, false)
  | some caseId =>
    match res with
    | .ok data =>
        let s1 := renderCourtroomSessionState { s with courtroomSessionState := data }
        if data.court_status = "COMPLETED" ∨ data.court_status = "ERROR" then
          ({ s1 with
              pollingActive := false
              log := s1.log ++ ["Courtroom session for " ++ caseId
                ++ " ended with status: " ++ data.court_status]
              status := "Courtroom session concluded: " ++ data.court_status },
            true)
        else
          (s1, true)
    | .httpError detail =>
        let s1 := { s with
          error := some (jsOrStr detail "Failed to fetch courtroom updates.")
          log := s.log ++ ["Failed to fetch courtroom updates: "
            ++ jsOrStr detail "Unknown error"]
          pollingActive := false }
        let s2 := { s1 with courtroomSessionState :=
          { s1.courtroomSessionState with
              court_status := "ERROR"
              error_message := some (jsOrStr detail "Failed to fetch updates.") } }
        (renderCourtroomSessionState s2, true)
    | .networkError msg =>
        let s1 := { s with
          error := some ("Network error fetching courtroom updates: " ++ msg)
          log := s.log ++ ["Network error fetching courtroom updates: " ++ msg]
          pollingActive := false }
        let s2 := { s1 with courtroomSessionState :=
          { s1.courtroomSessionState with
              court_status := "ERROR"
              error_message := some msg } }
        (renderCourtroomSessionState s2, true)

/-- One firing of the polling interval: `setInterval(fetchCourtroomUpdates,
3000)` (`script.js` line 530) only fires while the interval is installed. -/
def pollTick (res : PollResult) (s : AppState) : AppState × Bool :=
  if s.pollingActive then fetchCourtroomUpdates res s else (s, false)

/-- Run a sequence of timer firings, counting the network requests issued. -/
def runPollTicks : List PollResult → AppState → AppState × Nat
  | [], s => (s, 0)
  | r :: rs, s =>
      let t := pollTick r s
      let u := runPollTicks rs t.1
      (u.1, (if t.2 then 1 else 0) + u.2)

/-- `resetCourtroomSessionView` (`script.js` lines 534-554): clears the
interval, leaves courtroom mode, unbinds the case id, resets the session
snapshot, clears the error, resets the status, re-renders, and logs. -/
def resetCourtroomSessionView (s : AppState) : AppState :=
  let s1 := { s with
    pollingActive := false
    showCourtroom := false
    currentCaseIdForCourtroom := none
    courtroomSessionState := initialSessionState
    error := none
    status := "Idle" }
  let s2 := renderAppUI s1
  let s3 := renderCourtroomSessionState s2
  { s3 with log := s3.log ++ ["Courtroom session view reset."] }

/-- The code's victim-address pattern test, `/^0x[a-fA-F0-9]{40}$/.test(s)`
(`script.js` line 388): `0`, `x`, then exactly 40 hex characters. -/
def isHexDigitChar (c : Char) : Bool :=
  ('0' ≤ c && c ≤ '9') || ('a' ≤ c && c ≤ 'f') || ('A' ≤ c && c ≤ 'F')

/-- Semantics of the anchored regex `^0x[a-fA-F0-9]{40}$` applied to the
whole string, as executed at `script.js` line 388. -/
def ethAddressRegexTest (s : String) : Bool :=
  match s.data with
  | c1 :: c2 :: rest =>
      c1 = '0' && c2 = 'x' && rest.length == 40 && rest.all isHexDigitChar
  | _ => false

/-- The spec's independent characterisation of a well-formed victim
address: the `0x` prefix followed by exactly 40 hexadecimal characters
(total length 42). Stated from the spec's words, to be compared with the
code's `ethAddressRegexTest`. -/
def specEthAddress (s : String) : Prop :=
  s.length = 42 ∧ s.data.take 2 = ['0', 'x'] ∧
    ∀ c ∈ s.data.drop 2,
      c.isDigit ∨ ('a' ≤ c ∧ c ≤ 'f') ∨ ('A' ≤ c ∧ c ≤ 'F')

instance (s : String) : Decidable (specEthAddress s) := by
  unfold specEthAddress; infer_instance

/-- The input-validation prefix of `handleFlagPost` (`script.js` lines
379-392), run on the trimmed form values: returns the error message set by
the first failing guard, or `none` when validation passes. The constant
`FASTAPI_BACKEND_URL` (line 20) is non-empty, so its guard never fires. -/
def flagPostValidationError (s : AppState) : Option String :=
  if jsTrim s.postContent = "" then
    some "Please enter the post content."
  else if jsTrim s.victimInfo = "" then
    some "Please enter victim information."
  else if jsTrim s.victimEthAddress ≠ ""
      ∧ ethAddressRegexTest (jsTrim s.victimEthAddress) = false then
    some "Please enter a valid Ethereum/Polygon address (starts with 0x and is 42 characters long)."
  else if jsTruthyOpt s.userId = false then
    some "Authentication not ready. Please wait a moment or refresh."
  else
    none

/-- Outcome of the single `POST /flag_post` call, as observed by
`handleFlagPost`: a parsed 2xx body (its optional `message`, `case_id` and
`case_details.status` fields; the outer option on `case_details_status` is
presence of `case_details` itself), a non-2xx body with its optional
`detail`, or a thrown network error. -/
inductive FlagResponse where
  | ok (message : Option String) (case_id : Option String)
       (case_details_status : Option (Option String))
  | httpError (detail : Option String)
  | networkError (msg : String)
deriving Repr, DecidableEq

/-- `handleFlagPost` (`script.js` lines 379-447). Returns the new state and
whether a network request was issued. A failing validation guard sets the
error and returns without fetching. Otherwise one request is sent; on a 2xx
body with `case_details` present and status other than
`'Case Closed - No Violation'` the view switches to courtroom mode bound to
the returned case id (lines 423-428); any failure surfaces the error
(lines 434-438). The `finally` block (lines 439-446) always resets the
processing flag and clears the content, link and victim-info fields,
leaving the victim-address field untouched. -/
def handleFlagPost (s : AppState) (resp : FlagResponse) : AppState × Bool :=
  match flagPostValidationError s with
  | some msg => ({ s with error := some msg }, false)
  | none =>
    let s1 := { s with
      isProcessing := true
      log := ["Sending flag post request to backend..."]
      error := some ""
      status := "Initiating initial analysis via FastAPI backend..." }
    let s2 :=
      match resp with
      | .ok message case_id case_details_status =>
          let sOk := { s1 with
            log := s1.log ++ ["Initial Analysis Backend Response received."]
            status := jsOrStr message "Initial analysis complete." }
          match case_details_status with
          | some st =>
              if st ≠ some "Case Closed - No Violation" then
                renderAppUI { sOk with
                  currentCaseIdForCourtroom := case_id
                  showCourtroom := true
                  status := "Violation detected. Courtroom session commencing!"
                  log := sOk.log ++ ["Violation detected, showing courtroom for case: "
                    ++ jsOrStr case_id "undefined"] }
              else
                { sOk with
                  status := "No violation detected. Case closed."
                  log := sOk.log ++ ["No violation detected. Case closed."] }
          | none =>
              { sOk with
                status := "No violation detected. Case closed."
                log := sOk.log ++ ["No violation detected. Case closed."] }
      | .httpError detail =>
          let msg := jsOrStr detail "Backend responded with a non-2xx status."
          { s1 with
            error := some ("Error during initial processing: " ++ msg)
            log := s1.log ++ ["Error during initial processing: " ++ msg]
            status := "Error during initial processing." }
      | .networkError msg =>
          { s1 with
            error := some ("Error during initial processing: " ++ msg)
            log := s1.log ++ ["Error during initial processing: " ++ msg]
            status := "Error during initial processing." }
    ({ s2 with
        isProcessing := false
        postContent := ""
        postLink := ""
        victimInfo := "" },
      true)

/-- The ledger mirror's `onSnapshot` success callback
(`script.js` lines 352-364): guarded by the `userId` global; maps each
document to `{ id: doc.id, ...doc.data() }`, replaces `appState.cases`
wholesale, and logs. -/
def processLedgerSnapshot (docs : List FirestoreDoc) (s : AppState) : AppState :=
  if jsTruthyOpt s.userId = false then
    s
  else
    let fetchedCases := docs.map (fun d => CaseDoc.mk d.id d.data)
    { s with
      cases := fetchedCases
      log := s.log ++ ["Updated public ledger with "
        ++ toString fetchedCases.length ++ " cases."] }

/-! ## The `CyberLawLedger` Solidity contract -/

/-- The `Case` struct of `CyberLawLedger.sol` (lines 10-24). Addresses are
modelled as `Nat`; Wei amounts as `Nat`. -/
structure LedgerCase where
  caseId : String
  postHash : String
  victimAddress : Nat
  violationType : String
  councilDecision : String
  penaltyAmountWei : Nat
  banStatus : String
  decisionExplanation : String
  compensationToVictimWei : Nat
  socialScore : Nat
  fineCollected : Bool
  compensationDistributed : Bool
  timestamp : Nat
deriving Repr, DecidableEq

/-- The zero value a Solidity `mapping(string => Case)` yields for an
unrecorded key. -/
def emptyLedgerCase : LedgerCase :=
  { caseId := ""
    postHash := ""
    victimAddress := 0
    violationType := ""
    councilDecision := ""
    penaltyAmountWei := 0
    banStatus := ""
    decisionExplanation := ""
    compensationToVictimWei := 0
    socialScore := 0
    fineCollected := false
    compensationDistributed := false
    timestamp := 0 }

/-- The contract storage of `CyberLawLedger`: the `cases` mapping (as an
association list, most recent write first), the `caseIds` array, and the
contract's native-currency balance. -/
structure LedgerState where
  cases : List (String × LedgerCase)
  caseIds : List String
  balance : Nat
deriving Repr, DecidableEq

/-- Association-list lookup for the `cases` mapping (first binding wins,
so a prepended write shadows earlier ones). -/
def lookupCase : List (String × LedgerCase) → String → Option LedgerCase
  | [], _ => none
  | (k, c) :: rest, id => if id = k then some c else lookupCase rest id

/-- Reading `cases[_caseId]`, with the Solidity zero-value default for an
unrecorded key. -/
def LedgerState.getCase (st : LedgerState) (id : String) : LedgerCase :=
  (lookupCase st.cases id).getD emptyLedgerCase

/-- Storage of a freshly deployed `CyberLawLedger`. -/
def initialLedgerState : LedgerState :=
  { cases := [], caseIds := [], balance := 0 }

/-- The caller-supplied arguments of `recordCase`
(`CyberLawLedger.sol` lines 39-49). -/
structure RecordCaseArgs where
  caseId : String
  postHash : String
  victimAddress : Nat
  violationType : String
  councilDecision : String
  penaltyAmountWei : Nat
  banStatus : String
  decisionExplanation : String
  compensationToVictimWei : Nat
  socialScore : Nat
deriving Repr, DecidableEq

/-- `recordCase` (`CyberLawLedger.sol` lines 39-71): requires the id to be
unused (`cases[_caseId].timestamp == 0`), then stores the case with both
payment flags `false` and `block.timestamp` (passed in as `blockTimestamp`),
and appends the id to `caseIds`. `none` models a revert. -/
def recordCase (st : LedgerState) (a : RecordCaseArgs) (blockTimestamp : Nat) :
    Option LedgerState :=
  if (st.getCase a.caseId).timestamp ≠ 0 then
    none
  else
    let c : LedgerCase :=
      { caseId := a.caseId
        postHash := a.postHash
        victimAddress := a.victimAddress
        violationType := a.violationType
        councilDecision := a.councilDecision
        penaltyAmountWei := a.penaltyAmountWei
        banStatus := a.banStatus
        decisionExplanation := a.decisionExplanation
        compensationToVictimWei := a.compensationToVictimWei
        socialScore := a.socialScore
        fineCollected := false
        compensationDistributed := false
        timestamp := blockTimestamp }
    some { st with
      cases := (a.caseId, c) :: st.cases
      caseIds := st.caseIds ++ [a.caseId] }

/-- `payFine` (`CyberLawLedger.sol` lines 75-85): requires the case to
exist, the fine not yet collected, and `msg.value` to cover the penalty;
marks the fine collected, the funds staying in the contract. -/
def payFine (st : LedgerState) (id : String) (msgValue : Nat) :
    Option LedgerState :=
  let c := st.getCase id
  if c.timestamp = 0 then none
  else if c.fineCollected then none
  else if msgValue < c.penaltyAmountWei then none
  else
    some { st with
      cases := (id, { c with fineCollected := true }) :: st.cases
      balance := st.balance + msgValue }

/-- `distributeCompensation` (`CyberLawLedger.sol` lines 89-102): requires
the case to exist, the fine collected, compensation not yet distributed,
and sufficient contract balance; transfers the compensation to the victim
(the external call's success is the `callSucceeds` argument; its failure
reverts) and marks it distributed. -/
def distributeCompensation (st : LedgerState) (id : String)
    (callSucceeds : Bool) : Option LedgerState :=
  let c := st.getCase id
  if c.timestamp = 0 then none
  else if c.fineCollected = false then none
  else if c.compensationDistributed then none
  else if st.balance < c.compensationToVictimWei then none
  else if callSucceeds = false then none
  else
    some { st with
      cases := (id, { c with compensationDistributed := true }) :: st.cases
      balance := st.balance - c.compensationToVictimWei }

/-- The contract states reachable from deployment through the three
mutating entry points. -/
inductive LedgerReachable : LedgerState → Prop where
  | init : LedgerReachable initialLedgerState
  | record {st st' : LedgerState} {a : RecordCaseArgs} {ts : Nat} :
      LedgerReachable st → recordCase st a ts = some st' → LedgerReachable st'
  | pay {st st' : LedgerState} {id : String} {v : Nat} :
      LedgerReachable st → payFine st id v = some st' → LedgerReachable st'
  | distribute {st st' : LedgerState} {id : String} {ok : Bool} :
      LedgerReachable st → distributeCompensation st id ok = some st' →
      LedgerReachable st'

/-- The claimed ledger invariant: a case's compensation is only ever
distributed after its fine was collected. -/
def LedgerInv (st : LedgerState) : Prop :=
  ∀ id : String, (st.getCase id).compensationDistributed = true →
    (st.getCase id).fineCollected = true

/-! ## Shared lemmas and sample states -/

/-- While the polling interval is not installed, timer firings do nothing:
no request is issued and the state is untouched. -/
theorem runPollTicks_of_inactive (rs : List PollResult) (s : AppState)
    (h : s.pollingActive = false) : runPollTicks rs s = (s, 0) := by
  induction rs with
  | nil => rfl
  | cons r rs ih => simp [runPollTicks, pollTick, h, ih]

/-- A client state with an authenticated user and a courtroom session bound
to case `c1` under active polling, used to instantiate the theorems. -/
def samplePollingState : AppState :=
  { initialAppState with
      userId := some "user-1"
      currentCaseIdForCourtroom := some "c1"
      showCourtroom := true
      pollingActive := true }

/-- A sample final verdict record. -/
def sampleVerdict : Verdict :=
  { verdict_type := "GUILTY"
    final_fine_eth := some 1
    final_ban_status := "None"
    explanation := "harassment"
    final_compensation_eth := some 1
    social_score := 20
    social_score_explanation := "low" }

/-! ## C9: poll with no bound case id is a no-op -/

/-- C9: when no case identifier is bound
(`currentCaseIdForCourtroom = null`), `fetchCourtroomUpdates` issues no
network request and leaves the entire application state unchanged
(`script.js` lines 488-489). -/
theorem poll_without_case_is_noop (s : AppState) (r : PollResult)
    (h : s.currentCaseIdForCourtroom = none) :
    fetchCourtroomUpdates r s = (s, false) := by
  simp [fetchCourtroomUpdates, h]

/-- Witness for C9 at the initial state and a concrete failure result. -/
theorem poll_without_case_is_noop_witness :
    fetchCourtroomUpdates (.networkError "boom") initialAppState
      = (initialAppState, false) :=
  poll_without_case_is_noop initialAppState (.networkError "boom") rfl

/-! ## C8: ledger mirror replaces the cache wholesale -/

/-- C8: processing two successive remote snapshots leaves the local cache
holding exactly the second snapshot's records — full replacement, no
merging, whatever records the first snapshot held
(`script.js` lines 352-364). -/
theorem ledger_mirror_replaces_cache (s : AppState)
    (snap1 snap2 : List FirestoreDoc) (h : jsTruthyOpt s.userId = true) :
    (processLedgerSnapshot snap2 (processLedgerSnapshot snap1 s)).cases
      = snap2.map (fun d => CaseDoc.mk d.id d.data) := by
  simp [processLedgerSnapshot, h]

/-- Witness for C8: a 3-record snapshot followed by a 1-record snapshot
sharing an identifier with the first; the cache holds exactly the second. -/
theorem ledger_mirror_replaces_cache_witness :
    (processLedgerSnapshot [⟨"a", [("status", "Open")]⟩]
        (processLedgerSnapshot
          [⟨"a", []⟩, ⟨"b", []⟩, ⟨"c", []⟩]
          { initialAppState with userId := some "user-1" })).cases
      = [CaseDoc.mk "a" [("status", "Open")]] := by
  have h := ledger_mirror_replaces_cache
    { initialAppState with userId := some "user-1" }
    [⟨"a", []⟩, ⟨"b", []⟩, ⟨"c", []⟩]
    [⟨"a", [("status", "Open")]⟩] (by decide)
  simpa using h

/-! ## C4: reset -/

/-- Counterexample to C4 as stated: `resetCourtroomSessionView` appends a
log entry on every call (`addLog` at `script.js` line 553), so calling it
twice does not yield a state identical to calling it once. -/
theorem reset_twice_differs_from_once :
    resetCourtroomSessionView (resetCourtroomSessionView initialAppState)
      ≠ resetCourtroomSessionView initialAppState := by
  decide

/-- C4 amended: `resetCourtroomSessionView` is idempotent on every state
component except the activity log, to which each call appends one entry;
after any call the session snapshot is the initial `IDLE` one (empty
transcript, empty agent-status map, no verdict, no error), the case
identifier is unbound, the app error is cleared, the status is `Idle`, the
view is back in flagging mode, and the polling timer is cleared
(`script.js` lines 534-554). -/
theorem reset_idempotent_except_log (s : AppState) :
    resetCourtroomSessionView (resetCourtroomSessionView s)
      = { resetCourtroomSessionView s with
          log := (resetCourtroomSessionView s).log
            ++ ["Courtroom session view reset."] } ∧
    (resetCourtroomSessionView s).courtroomSessionState = initialSessionState ∧
    (resetCourtroomSessionView s).currentCaseIdForCourtroom = none ∧
    (resetCourtroomSessionView s).error = none ∧
    (resetCourtroomSessionView s).status = "Idle" ∧
    (resetCourtroomSessionView s).showCourtroom = false ∧
    (resetCourtroomSessionView s).pollingActive = false := by
  refine ⟨?_, ?_, ?_, ?_, ?_, ?_, ?_⟩ <;>
    simp [resetCourtroomSessionView, renderAppUI, renderCourtroomSessionState,
      initialSessionState, startCourtroomPolling]

/-! ## C1: a terminal poll snapshot stops polling for good -/

/-- C1: once a poll response snapshot carries a terminal `court_status`
(`COMPLETED` or `ERROR`), `fetchCourtroomUpdates` clears the polling
interval, and any number of further timer ticks issue no request at all
(`script.js` lines 495-505 together with lines 279-283); only an explicit
reset and restart can install a new interval. -/
theorem poll_terminal_stops_polling (s : AppState) (data : SessionState)
    (c : String) (rs : List PollResult)
    (hcase : s.currentCaseIdForCourtroom = some c)
    (hterm : data.court_status = "COMPLETED" ∨ data.court_status = "ERROR") :
    (fetchCourtroomUpdates (.ok data) s).1.pollingActive = false ∧
    (runPollTicks rs (fetchCourtroomUpdates (.ok data) s).1).2 = 0 := by
  have h1 : (fetchCourtroomUpdates (.ok data) s).1.pollingActive = false := by
    simp [fetchCourtroomUpdates, hcase, hterm]
  exact ⟨h1, by rw [runPollTicks_of_inactive rs _ h1]⟩

/-- Witness for C1: a `COMPLETED` snapshot received while polling case
`c1`; two further simulated timer ticks issue zero requests. -/
theorem poll_terminal_stops_polling_witness :
    (fetchCourtroomUpdates
        (.ok { initialSessionState with court_status := "COMPLETED" })
        samplePollingState).1.pollingActive = false ∧
    (runPollTicks
        [.ok initialSessionState, .networkError "late tick"]
        (fetchCourtroomUpdates
          (.ok { initialSessionState with court_status := "COMPLETED" })
          samplePollingState).1).2 = 0 :=
  poll_terminal_stops_polling samplePollingState
    { initialSessionState with court_status := "COMPLETED" } "c1"
    [.ok initialSessionState, .networkError "late tick"]
    rfl (Or.inl rfl)

/-! ## C3: poll failure forces ERROR and halts polling -/

/-- Whether a poll outcome is a failure (non-2xx response or thrown
network error). -/
def PollResult.isFailure : PollResult → Bool
  | .ok _ => false
  | .httpError _ => true
  | .networkError _ => true

/-- The message `fetchCourtroomUpdates` attaches to
`courtroomSessionState.error_message` for a failing poll
(`script.js` lines 512 and 521). -/
def PollResult.attachedErrorMessage : PollResult → Option String
  | .ok _ => none
  | .httpError detail => some (jsOrStr detail "Failed to fetch updates.")
  | .networkError msg => some msg

/-- C3: a failing poll (non-2xx response or network error) forces the
local `court_status` to `ERROR`, attaches the error message to the session
state, clears the polling interval, and leaves `final_verdict` untouched —
so the verdict panel stays hidden whenever no verdict had been received
(`script.js` lines 506-523). -/
theorem poll_failure_forces_error (s : AppState) (r : PollResult) (c : String)
    (hcase : s.currentCaseIdForCourtroom = some c)
    (hfail : r.isFailure = true) :
    (fetchCourtroomUpdates r s).1.courtroomSessionState.court_status = "ERROR" ∧
    (fetchCourtroomUpdates r s).1.courtroomSessionState.error_message
      = r.attachedErrorMessage ∧
    (fetchCourtroomUpdates r s).1.pollingActive = false ∧
    (fetchCourtroomUpdates r s).1.courtroomSessionState.final_verdict
      = s.courtroomSessionState.final_verdict ∧
    (s.courtroomSessionState.final_verdict = none →
      verdictPanelVisible (fetchCourtroomUpdates r s).1 = false) := by
  cases r with
  | ok data => simp [PollResult.isFailure] at hfail
  | httpError detail =>
      refine ⟨?_, ?_, ?_, ?_, ?_⟩ <;>
        simp [fetchCourtroomUpdates, hcase, renderCourtroomSessionState,
          PollResult.attachedErrorMessage, verdictPanelVisible]
  | networkError msg =>
      refine ⟨?_, ?_, ?_, ?_, ?_⟩ <;>
        simp [fetchCourtroomUpdates, hcase, renderCourtroomSessionState,
          PollResult.attachedErrorMessage, verdictPanelVisible]

/-- Witness for C3: the first poll for case `c1` fails with a non-2xx
response carrying detail `agent timeout`. -/
theorem poll_failure_forces_error_witness :
    (fetchCourtroomUpdates (.httpError (some "agent timeout"))
        samplePollingState).1.courtroomSessionState.court_status = "ERROR" ∧
    (fetchCourtroomUpdates (.httpError (some "agent timeout"))
        samplePollingState).1.courtroomSessionState.error_message
      = PollResult.attachedErrorMessage (.httpError (some "agent timeout")) ∧
    (fetchCourtroomUpdates (.httpError (some "agent timeout"))
        samplePollingState).1.pollingActive = false ∧
    (fetchCourtroomUpdates (.httpError (some "agent timeout"))
        samplePollingState).1.courtroomSessionState.final_verdict
      = samplePollingState.courtroomSessionState.final_verdict ∧
    (samplePollingState.courtroomSessionState.final_verdict = none →
      verdictPanelVisible (fetchCourtroomUpdates
        (.httpError (some "agent timeout")) samplePollingState).1 = false) :=
  poll_failure_forces_error samplePollingState
    (.httpError (some "agent timeout")) "c1" rfl rfl

/-! ## C2: no defensive check on `final_verdict` vs `court_status` -/

/-- A poll snapshot violating the spec's invariant: a non-null
`final_verdict` with a non-`COMPLETED` status. -/
def invalidVerdictSnapshot : SessionState :=
  { initialSessionState with
      court_status := "JURY_DELIBERATION"
      final_verdict := some sampleVerdict }

/-- Counterexample to C2 as stated: `fetchCourtroomUpdates` performs no
defensive check — a snapshot with `final_verdict` non-null and
`court_status ≠ 'COMPLETED'` is accepted wholesale (the local snapshot
becomes exactly that data), no error is flagged, polling stays active (the
session is treated as non-terminal), and the verdict panel is rendered
(`script.js` lines 495-505 and 256-270). -/
theorem poll_accepts_invariant_violating_snapshot :
    invalidVerdictSnapshot.final_verdict.isSome = true ∧
    invalidVerdictSnapshot.court_status ≠ "COMPLETED" ∧
    (fetchCourtroomUpdates (.ok invalidVerdictSnapshot)
        samplePollingState).1.courtroomSessionState = invalidVerdictSnapshot ∧
    (fetchCourtroomUpdates (.ok invalidVerdictSnapshot)
        samplePollingState).1.error = samplePollingState.error ∧
    (fetchCourtroomUpdates (.ok invalidVerdictSnapshot)
        samplePollingState).1.pollingActive = true ∧
    verdictPanelVisible
      (fetchCourtroomUpdates (.ok invalidVerdictSnapshot)
        samplePollingState).1 = true := by
  decide

/-- C2 amended: `poll()` applies no invariant check at all. Any 2xx
snapshot — including one with `final_verdict` non-null and a
non-terminal `court_status` — replaces the local session state wholesale;
no error is raised, polling continues, and the verdict panel's visibility
simply follows `final_verdict`, so such a snapshot is silently rendered as
a non-terminal session. -/
theorem poll_accepts_any_snapshot (s : AppState) (data : SessionState)
    (c : String)
    (hcase : s.currentCaseIdForCourtroom = some c)
    (hpoll : s.pollingActive = true)
    (hnc : data.court_status ≠ "COMPLETED")
    (hne : data.court_status ≠ "ERROR") :
    (fetchCourtroomUpdates (.ok data) s).1.courtroomSessionState = data ∧
    (fetchCourtroomUpdates (.ok data) s).1.error = s.error ∧
    (fetchCourtroomUpdates (.ok data) s).1.pollingActive = true ∧
    verdictPanelVisible (fetchCourtroomUpdates (.ok data) s).1
      = data.final_verdict.isSome := by
  refine ⟨?_, ?_, ?_, ?_⟩ <;>
    simp [fetchCourtroomUpdates, hcase, renderCourtroomSessionState,
      hnc, hne, hpoll, verdictPanelVisible]

/-- Witness for the amended C2 at the invariant-violating snapshot. -/
theorem poll_accepts_any_snapshot_witness :
    (fetchCourtroomUpdates (.ok invalidVerdictSnapshot)
        samplePollingState).1.courtroomSessionState = invalidVerdictSnapshot ∧
    (fetchCourtroomUpdates (.ok invalidVerdictSnapshot)
        samplePollingState).1.error = samplePollingState.error ∧
    (fetchCourtroomUpdates (.ok invalidVerdictSnapshot)
        samplePollingState).1.pollingActive = true ∧
    verdictPanelVisible (fetchCourtroomUpdates (.ok invalidVerdictSnapshot)
        samplePollingState).1
      = invalidVerdictSnapshot.final_verdict.isSome :=
  poll_accepts_any_snapshot samplePollingState invalidVerdictSnapshot "c1"
    rfl rfl (by decide) (by decide)

/-! ## C5: victim-address validation -/

/-- Pointwise agreement of the code's hex-character class with the spec's
description of a hexadecimal character. -/
theorem isHexDigitChar_iff (c : Char) :
    isHexDigitChar c = true
      ↔ (c.isDigit ∨ ('a' ≤ c ∧ c ≤ 'f') ∨ ('A' ≤ c ∧ c ≤ 'F')) := by
  simp [isHexDigitChar, Char.isDigit, Bool.or_eq_true, Bool.and_eq_true,
    decide_eq_true_eq]
  tauto

/-- The regex test executed at `script.js` line 388 accepts exactly the
strings the spec describes: the `0x` prefix followed by exactly 40
hexadecimal characters. -/
theorem ethAddressRegexTest_iff_spec (a : String) :
    ethAddressRegexTest a = true ↔ specEthAddress a := by
  obtain ⟨l⟩ := a
  match l with
  | [] => simp [ethAddressRegexTest, specEthAddress, String.length]
  | [c] => simp [ethAddressRegexTest, specEthAddress, String.length]
  | c1 :: c2 :: rest =>
      simp only [ethAddressRegexTest, specEthAddress, String.length,
        List.length_cons, List.take, List.drop, List.all_eq_true,
        Bool.and_eq_true, beq_iff_eq, decide_eq_true_eq, List.cons.injEq,
        and_true]
      constructor
      · rintro ⟨⟨⟨h1, h2⟩, hlen⟩, hall⟩
        refine ⟨by omega, ⟨h1, h2⟩, fun c hc => ?_⟩
        exact (isHexDigitChar_iff c).mp (hall c hc)
      · rintro ⟨hlen, ⟨h1, h2⟩, hall⟩
        exact ⟨⟨⟨h1, h2⟩, by omega⟩,
          fun c hc => (isHexDigitChar_iff c).mpr (hall c hc)⟩

/-- C5: with non-empty content and victim info, `handleFlagPost` rejects
the (trimmed) victim-address field with its field-specific error and no
network call exactly when the field is a non-empty string not of the form
`0x` followed by 40 hexadecimal characters; every other value of the field
passes this guard (`script.js` lines 388-390). -/
theorem flagPost_address_validation (s : AppState) (resp : FlagResponse)
    (hc : jsTrim s.postContent ≠ "") (hv : jsTrim s.victimInfo ≠ "") :
    (handleFlagPost s resp
        = ({ s with error := some "Please enter a valid Ethereum/Polygon address (starts with 0x and is 42 characters long)." },
           false))
      ↔ (jsTrim s.victimEthAddress ≠ ""
          ∧ ¬ specEthAddress (jsTrim s.victimEthAddress)) := by
  unfold handleFlagPost flagPostValidationError
  rw [if_neg hc, if_neg hv]
  by_cases ha : jsTrim s.victimEthAddress ≠ ""
      ∧ ethAddressRegexTest (jsTrim s.victimEthAddress) = false
  · rw [if_pos ha]
    have hspec : ¬ specEthAddress (jsTrim s.victimEthAddress) := by
      intro hs
      have := (ethAddressRegexTest_iff_spec _).mpr hs
      rw [ha.2] at this
      exact Bool.false_ne_true this
    constructor
    · intro _
      exact ⟨ha.1, hspec⟩
    · intro _
      rfl
  · rw [if_neg ha]
    constructor
    · intro h
      exfalso
      by_cases hu : jsTruthyOpt s.userId = false
      · rw [if_pos hu] at h
        have := congrArg (fun p => p.1.error) h
        simp at this
      · rw [if_neg hu] at h
        have := congrArg (fun p => p.2) h
        simp at this
    · intro h
      exfalso
      apply ha
      refine ⟨h.1, ?_⟩
      rcases Bool.eq_false_or_eq_true (ethAddressRegexTest (jsTrim s.victimEthAddress))
        with ht | hf
      · exact absurd ((ethAddressRegexTest_iff_spec _).mp ht) h.2
      · exact hf

/-- Witness for C5: content and victim info filled in, a malformed address
`0x123`; the address guard rejects it without a network call. -/
theorem flagPost_address_validation_witness :
    handleFlagPost
        { initialAppState with
            postContent := "you are worthless"
            victimInfo := "alice"
            victimEthAddress := "0x123"
            userId := some "user-1" }
        (.ok none none none)
      = ({ { initialAppState with
              postContent := "you are worthless"
              victimInfo := "alice"
              victimEthAddress := "0x123"
              userId := some "user-1" } with
            error := some "Please enter a valid Ethereum/Polygon address (starts with 0x and is 42 characters long)." },
         false) :=
  (flagPost_address_validation
      { initialAppState with
          postContent := "you are worthless"
          victimInfo := "alice"
          victimEthAddress := "0x123"
          userId := some "user-1" }
      (.ok none none none) (by decide) (by decide)).mpr
    ⟨by decide, by decide⟩

/-! ## C6: empty content or victim info never reaches the network -/

/-- C6: when the trimmed post content or the trimmed victim info is empty,
`handleFlagPost` stops at the corresponding field-specific validation error
and issues no network request (`script.js` lines 386-387). -/
theorem flagPost_empty_fields_no_request (s : AppState) (resp : FlagResponse)
    (h : jsTrim s.postContent = "" ∨ jsTrim s.victimInfo = "") :
    (handleFlagPost s resp).2 = false ∧
    (handleFlagPost s resp).1.error
      = some (if jsTrim s.postContent = "" then "Please enter the post content."
              else "Please enter victim information.") := by
  unfold handleFlagPost flagPostValidationError
  by_cases hc : jsTrim s.postContent = ""
  · simp [hc]
  · rcases h with h | h
    · exact absurd h hc
    · simp [hc, h]

/-- Witness for C6: a form with victim info but empty post content. -/
theorem flagPost_empty_fields_no_request_witness :
    (handleFlagPost { initialAppState with victimInfo := "alice" }
        (.ok none none none)).2 = false ∧
    (handleFlagPost { initialAppState with victimInfo := "alice" }
        (.ok none none none)).1.error
      = some (if jsTrim ({ initialAppState with victimInfo := "alice" } :
                AppState).postContent = ""
              then "Please enter the post content."
              else "Please enter victim information.") :=
  flagPost_empty_fields_no_request { initialAppState with victimInfo := "alice" }
    (.ok none none none) (Or.inl (by decide))

/-! ## C7: completion clears the form but keeps the address -/

/-- C7: whenever `handleFlagPost` passes validation — so the backend call
is actually made — its `finally` block runs on completion for success and
failure alike: the post-content, post-link and victim-info fields are
cleared, while the victim-address field keeps its previous value
(`script.js` lines 439-446). -/
theorem flagPost_clears_fields_keeps_address (s : AppState)
    (resp : FlagResponse) (h : flagPostValidationError s = none) :
    (handleFlagPost s resp).2 = true ∧
    (handleFlagPost s resp).1.postContent = "" ∧
    (handleFlagPost s resp).1.postLink = "" ∧
    (handleFlagPost s resp).1.victimInfo = "" ∧
    (handleFlagPost s resp).1.victimEthAddress = s.victimEthAddress := by
  unfold handleFlagPost
  rw [h]
  refine ⟨rfl, rfl, rfl, rfl, ?_⟩
  cases resp with
  | ok message case_id case_details_status =>
      cases case_details_status with
      | none => rfl
      | some st =>
          by_cases hst : st ≠ some "Case Closed - No Violation"
          · simp only [if_pos hst]
            simp [renderAppUI, renderCourtroomSessionState,
              startCourtroomPolling]
            split
            · rfl
            · split <;> rfl
          · simp [if_neg hst]
  | httpError detail => rfl
  | networkError msg => rfl

/-- Witness for C7: a fully valid form whose backend call fails with a
network error; the three fields are cleared, the address survives. -/
theorem flagPost_clears_fields_keeps_address_witness :
    (handleFlagPost
        { initialAppState with
            postContent := "you are worthless"
            postLink := "https://example.com/p/1"
            victimInfo := "alice"
            victimEthAddress := "0xAb5801a7D398351b8bE11C439e05C5b3259aec9B"
            userId := some "user-1" }
        (.networkError "offline")).2 = true ∧
    (handleFlagPost
        { initialAppState with
            postContent := "you are worthless"
            postLink := "https://example.com/p/1"
            victimInfo := "alice"
            victimEthAddress := "0xAb5801a7D398351b8bE11C439e05C5b3259aec9B"
            userId := some "user-1" }
        (.networkError "offline")).1.postContent = "" ∧
    (handleFlagPost
        { initialAppState with
            postContent := "you are worthless"
            postLink := "https://example.com/p/1"
            victimInfo := "alice"
            victimEthAddress := "0xAb5801a7D398351b8bE11C439e05C5b3259aec9B"
            userId := some "user-1" }
        (.networkError "offline")).1.postLink = "" ∧
    (handleFlagPost
        { initialAppState with
            postContent := "you are worthless"
            postLink := "https://example.com/p/1"
            victimInfo := "alice"
            victimEthAddress := "0xAb5801a7D398351b8bE11C439e05C5b3259aec9B"
            userId := some "user-1" }
        (.networkError "offline")).1.victimInfo = "" ∧
    (handleFlagPost
        { initialAppState with
            postContent := "you are worthless"
            postLink := "https://example.com/p/1"
            victimInfo := "alice"
            victimEthAddress := "0xAb5801a7D398351b8bE11C439e05C5b3259aec9B"
            userId := some "user-1" }
        (.networkError "offline")).1.victimEthAddress
      = ({ initialAppState with
            postContent := "you are worthless"
            postLink := "https://example.com/p/1"
            victimInfo := "alice"
            victimEthAddress := "0xAb5801a7D398351b8bE11C439e05C5b3259aec9B"
            userId := some "user-1" } : AppState).victimEthAddress :=
  flagPost_clears_fields_keeps_address
    { initialAppState with
        postContent := "you are worthless"
        postLink := "https://example.com/p/1"
        victimInfo := "alice"
        victimEthAddress := "0xAb5801a7D398351b8bE11C439e05C5b3259aec9B"
        userId := some "user-1" }
    (.networkError "offline") (by decide)

/-! ## C10: compensation is only distributed after the fine is collected -/

/-- Reading the `cases` mapping after a write: the written key yields the
new case, every other key is unaffected. -/
theorem getCase_after_write (st : LedgerState) (id0 : String)
    (c : LedgerCase) (ids : List String) (b : Nat) (id : String) :
    LedgerState.getCase ⟨(id0, c) :: st.cases, ids, b⟩ id
      = if id = id0 then c else st.getCase id := by
  by_cases h : id = id0 <;>
    simp [LedgerState.getCase, lookupCase, h]

/-- C10: every state of the `CyberLawLedger` contract reachable from
deployment through `recordCase`, `payFine` and `distributeCompensation`
satisfies the invariant that a case's `compensationDistributed` flag
implies its `fineCollected` flag: `recordCase` initialises both flags to
`false`, `payFine` alone sets `fineCollected`, and
`distributeCompensation` requires `fineCollected` before setting
`compensationDistributed` (`CyberLawLedger.sol` lines 39-102). -/
theorem ledger_compensation_requires_fine (st : LedgerState)
    (h : LedgerReachable st) : LedgerInv st := by
  induction h with
  | init =>
      intro id hcomp
      simp [LedgerState.getCase, initialLedgerState, lookupCase,
        emptyLedgerCase] at hcomp
  | record hst heq ih =>
      rename_i st₀ st' a ts
      unfold recordCase at heq
      split at heq
      · exact absurd heq (by simp)
      · rw [Option.some_inj] at heq
        subst heq
        intro id hcomp
        rw [getCase_after_write] at hcomp ⊢
        by_cases hid : id = a.caseId
        · simp [hid] at hcomp
        · simp only [if_neg hid] at hcomp ⊢
          exact ih id hcomp
  | pay hst heq ih =>
      rename_i st₀ st' id0 v
      unfold payFine at heq
      simp only [] at heq
      split at heq
      · exact absurd heq (by simp)
      · split at heq
        · exact absurd heq (by simp)
        · split at heq
          · exact absurd heq (by simp)
          · rw [Option.some_inj] at heq
            subst heq
            intro id hcomp
            rw [getCase_after_write] at hcomp ⊢
            by_cases hid : id = id0
            · simp [hid]
            · simp only [if_neg hid] at hcomp ⊢
              exact ih id hcomp
  | distribute hst heq ih =>
      rename_i st₀ st' id0 ok
      unfold distributeCompensation at heq
      simp only [] at heq
      split at heq
      · exact absurd heq (by simp)
      · split at heq
        · exact absurd heq (by simp)
        · split at heq
          · exact absurd heq (by simp)
          · split at heq
            · exact absurd heq (by simp)
            · split at heq
              · exact absurd heq (by simp)
              · rw [Option.some_inj] at heq
                subst heq
                rename_i hexists hfine hcompd hbal hcall
                intro id hcomp
                rw [getCase_after_write] at hcomp ⊢
                by_cases hid : id = id0
                · simp only [if_pos hid]
                  simpa using hfine
                · simp only [if_neg hid] at hcomp ⊢
                  exact ih id hcomp

/-- Witness for C10 at the deployed (initial) contract state. -/
theorem ledger_compensation_requires_fine_witness :
    LedgerInv initialLedgerState :=
  ledger_compensation_requires_fine initialLedgerState LedgerReachable.init
